import Mathlib

/-!
Shallow embedding of the VirtualBox launcher plugin (src/__init__.py).

The plugin observes machines of an external virtualization service,
classifies each machine's run state into a list of legal actions
(`Plugin.buildItem`), and executes the actions either via a fire-and-forget
launch (`Plugin.startVm`) or under a shared locked session
(`Plugin.sharedLockedSession` used by the six console/machine actions).

External service calls are modelled by an oracle `ServiceBehavior` fixing
the outcome of each call, and every operation returns the trace of calls
it performed (a `List Event`) together with its outcome
(`Except String Unit`, `Except.error` standing for a raised Python
exception carrying its message).
-/

namespace VBoxPlugin

/-- VirtualBox `MachineState` enumeration values, as consumed by the plugin.
The plugin names five of them explicitly; the rest fall through its
conditionals ("other" states). -/
inductive RunState where
  | Null
  | PoweredOff
  | Saved
  | Teleported
  | Aborted
  | AbortedSaved
  | Running
  | Paused
  | Stuck
  | Starting
  | Stopping
  | Saving
  | Restoring
  deriving DecidableEq, Repr

/-- The attributes of a VirtualBox machine consumed by the plugin:
`vm.id`, `vm.name`, `vm.state`. -/
structure Machine where
  id : String
  name : String
  state : RunState
  deriving DecidableEq, Repr

/-- `vbox_manager.getEnumValueName("MachineState", vm.state)`. -/
def getEnumValueName : RunState → String
  | .Null => "Null"
  | .PoweredOff => "PoweredOff"
  | .Saved => "Saved"
  | .Teleported => "Teleported"
  | .Aborted => "Aborted"
  | .AbortedSaved => "AbortedSaved"
  | .Running => "Running"
  | .Paused => "Paused"
  | .Stuck => "Stuck"
  | .Starting => "Starting"
  | .Stopping => "Stopping"
  | .Saving => "Saving"
  | .Restoring => "Restoring"

/-- One observable call performed by the plugin: logging calls, session
management calls, the launch path, console/machine operations, and the
query-side calls (machine enumeration and matcher invocation). -/
inductive Event where
  | infoE (msg : String)
  | warningE (msg : String)
  | getSessionObjectE
  | lockMachineE
  | unlockMachineE
  | launchVMProcessE (frontend : String) (args : String)
  | waitForCompletionE (timeout : Int)
  | powerButtonE
  | powerDownE
  | saveStateE
  | discardSavedStateE
  | resumeE
  | pauseE
  | enumerateMachinesE
  | matchE (candidate : String)
  deriving DecidableEq, Repr

/-- Events that mutate a machine, a session or a console (everything the
query handler must never emit). -/
def Event.isMutation : Event → Bool
  | .lockMachineE => true
  | .unlockMachineE => true
  | .launchVMProcessE _ _ => true
  | .waitForCompletionE _ => true
  | .powerButtonE => true
  | .powerDownE => true
  | .saveStateE => true
  | .discardSavedStateE => true
  | .resumeE => true
  | .pauseE => true
  | _ => false

/-- Events emitted by the session guard itself (acquisition and release). -/
def Event.isGuard : Event → Bool
  | .getSessionObjectE => true
  | .lockMachineE => true
  | .unlockMachineE => true
  | _ => false

/-- `warning(...)` log events. -/
def Event.isWarning : Event → Bool
  | .warningE _ => true
  | _ => false

/-- Oracle fixing the outcome of each external service call: `Except.ok`
means the call returns normally, `Except.error e` means it raises an
exception whose string form is `e`. -/
structure ServiceBehavior where
  getSessionObjectR : Except String Unit
  lockMachineR : Except String Unit
  unlockMachineR : Except String Unit
  launchVMProcessR : Except String Unit
  waitForCompletionR : Except String Unit
  powerButtonR : Except String Unit
  powerDownR : Except String Unit
  saveStateR : Except String Unit
  discardSavedStateR : Except String Unit
  resumeR : Except String Unit
  pauseR : Except String Unit

/-- The `try` body of `Plugin.startVm`: log `info`, obtain a fresh session
object, launch the VM process with frontend `'gui'` and empty arguments,
then wait on the returned progress with timeout `-1`.
Each attempted call is recorded in the trace; a raising call ends the body
with its error. -/
def startVmBody (svc : ServiceBehavior) (vm : Machine) :
    List Event × Except String Unit :=
  let tr := [Event.infoE ("Starting VM " ++ vm.name ++ " ...")]
  match svc.getSessionObjectR with
  | .error e => (tr ++ [Event.getSessionObjectE], .error e)
  | .ok _ =>
    let tr := tr ++ [Event.getSessionObjectE]
    match svc.launchVMProcessR with
    | .error e => (tr ++ [Event.launchVMProcessE "gui" ""], .error e)
    | .ok _ =>
      let tr := tr ++ [Event.launchVMProcessE "gui" ""]
      match svc.waitForCompletionR with
      | .error e => (tr ++ [Event.waitForCompletionE (-1)], .error e)
      | .ok _ => (tr ++ [Event.waitForCompletionE (-1)], .ok ())

/-- `Plugin.startVm`: the body above wrapped in
`try: ... except Exception as e: warning(str(e))` — any failure is logged
as one warning and the call returns normally. -/
def startVm (svc : ServiceBehavior) (vm : Machine) :
    List Event × Except String Unit :=
  match startVmBody svc vm with
  | (tr, .ok _) => (tr, .ok ())
  | (tr, .error e) => (tr ++ [Event.warningE e], .ok ())

/-- `Plugin.sharedLockedSession` applied to a guarded body (the statement
suite of the `with` block), given by its trace and outcome.

Python semantics of the `@contextmanager` generator:
`getSessionObject` runs before the `try`, so its failure propagates with
nothing else run; `lockMachine` runs inside the `try`, so on its failure
the `finally` still runs `unlockMachine`; after the body (normal or
raising) the `finally` runs `unlockMachine`; an exception raised by
`unlockMachine` in the `finally` replaces the in-flight exception. -/
def sharedLockedSession (svc : ServiceBehavior)
    (body : List Event × Except String Unit) :
    List Event × Except String Unit :=
  match svc.getSessionObjectR with
  | .error e => ([Event.getSessionObjectE], .error e)
  | .ok _ =>
    match svc.lockMachineR with
    | .error e =>
      match svc.unlockMachineR with
      | .ok _ =>
        ([Event.getSessionObjectE, Event.lockMachineE, Event.unlockMachineE],
         .error e)
      | .error e2 =>
        ([Event.getSessionObjectE, Event.lockMachineE, Event.unlockMachineE],
         .error e2)
    | .ok _ =>
      match svc.unlockMachineR with
      | .ok _ =>
        (Event.getSessionObjectE :: Event.lockMachineE ::
          (body.1 ++ [Event.unlockMachineE]), body.2)
      | .error e2 =>
        (Event.getSessionObjectE :: Event.lockMachineE ::
          (body.1 ++ [Event.unlockMachineE]), .error e2)

/-- `Plugin.acpiPowerVm`: `s.console.powerButton()` under a shared locked
session. -/
def acpiPowerVm (svc : ServiceBehavior) (vm : Machine) :
    List Event × Except String Unit :=
  sharedLockedSession svc ([Event.powerButtonE], svc.powerButtonR)

/-- `Plugin.stopVm`: `s.console.powerDown()` under a shared locked
session. -/
def stopVm (svc : ServiceBehavior) (vm : Machine) :
    List Event × Except String Unit :=
  sharedLockedSession svc ([Event.powerDownE], svc.powerDownR)

/-- `Plugin.saveVm`: `s.console.saveState()` under a shared locked
session. -/
def saveVm (svc : ServiceBehavior) (vm : Machine) :
    List Event × Except String Unit :=
  sharedLockedSession svc ([Event.saveStateE], svc.saveStateR)

/-- `Plugin.discardSavedVm`: `s.machine.discardSavedState()` under a
shared locked session. -/
def discardSavedVm (svc : ServiceBehavior) (vm : Machine) :
    List Event × Except String Unit :=
  sharedLockedSession svc ([Event.discardSavedStateE], svc.discardSavedStateR)

/-- `Plugin.resumeVm`: `s.console.resume()` under a shared locked
session. -/
def resumeVm (svc : ServiceBehavior) (vm : Machine) :
    List Event × Except String Unit :=
  sharedLockedSession svc ([Event.resumeE], svc.resumeR)

/-- `Plugin.pauseVm`: `s.console.pause()` under a shared locked
session. -/
def pauseVm (svc : ServiceBehavior) (vm : Machine) :
    List Event × Except String Unit :=
  sharedLockedSession svc ([Event.pauseE], svc.pauseR)

/-- Which `Plugin` method an `Action` closure is bound to
(`lambda m=vm: self.startVm(m)` and friends, with the machine captured). -/
inductive ExecKind where
  | startVmK
  | discardSavedVmK
  | saveVmK
  | acpiPowerVmK
  | stopVmK
  | pauseVmK
  | resumeVmK
  deriving DecidableEq, Repr

/-- Dispatch of a bound closure: invoking the action runs the
corresponding `Plugin` method on the captured machine. -/
def runExec (k : ExecKind) (svc : ServiceBehavior) (vm : Machine) :
    List Event × Except String Unit :=
  match k with
  | .startVmK => startVm svc vm
  | .discardSavedVmK => discardSavedVm svc vm
  | .saveVmK => saveVm svc vm
  | .acpiPowerVmK => acpiPowerVm svc vm
  | .stopVmK => stopVm svc vm
  | .pauseVmK => pauseVm svc vm
  | .resumeVmK => resumeVm svc vm

/-- An albert `Action(id, text, callable)` as built by `Plugin.buildItem`;
the callable is one of the plugin methods with the machine captured. -/
structure Action where
  id : String
  text : String
  exec : ExecKind
  deriving DecidableEq, Repr

/-- The action list constructed by `Plugin.buildItem`: the four sequential
`if` tests on `vm.state`, appending in source order. -/
def buildActions (vm : Machine) : List Action :=
  let actions : List Action := []
  let actions :=
    if vm.state = RunState.PoweredOff ∨ vm.state = RunState.Aborted then
      actions ++ [⟨"startvm", "Start virtual machine", ExecKind.startVmK⟩]
    else actions
  let actions :=
    if vm.state = RunState.Saved then
      actions ++
        [⟨"restorevm", "Start saved virtual machine", ExecKind.startVmK⟩,
         ⟨"discardvm", "Discard saved state", ExecKind.discardSavedVmK⟩]
    else actions
  let actions :=
    if vm.state = RunState.Running then
      actions ++
        [⟨"savevm", "Save virtual machine", ExecKind.saveVmK⟩,
         ⟨"poweroffvm", "Power off via ACPI", ExecKind.acpiPowerVmK⟩,
         ⟨"stopvm", "Turn off virtual machine", ExecKind.stopVmK⟩,
         ⟨"pausevm", "Pause virtual machine", ExecKind.pauseVmK⟩]
    else actions
  let actions :=
    if vm.state = RunState.Paused then
      actions ++ [⟨"resumevm", "Resume virtual machine", ExecKind.resumeVmK⟩]
    else actions
  actions

/-- The albert `StandardItem` fields set by `Plugin.buildItem`
(icon resolution is platform UI outside this core). -/
structure StandardItem where
  id : String
  text : String
  subtext : String
  input_action_text : String
  actions : List Action
  deriving DecidableEq, Repr

/-- `Plugin.buildItem`: one item per machine, with the state-classified
action list. -/
def buildItem (vm : Machine) : StandardItem :=
  { id := vm.id
    text := vm.name
    subtext := getEnumValueName vm.state
    input_action_text := vm.name
    actions := buildActions vm }

/-- The abstract action kinds of the specification (§3 ActionKind). -/
inductive ActionKind where
  | Start
  | RestoreSaved
  | DiscardSaved
  | Save
  | PowerButton
  | PowerDown
  | Pause
  | Resume
  deriving DecidableEq, Repr

/-- Modelled from the spec (§4.2 table): `legalActions` as the spec states
it, for comparison with the action lists the code builds. -/
def legalActionsSpec : RunState → List ActionKind
  | .PoweredOff => [.Start]
  | .Aborted => [.Start]
  | .Saved => [.RestoreSaved, .DiscardSaved]
  | .Running => [.Save, .PowerButton, .PowerDown, .Pause]
  | .Paused => [.Resume]
  | _ => []

/-- The spec-level kind of a built action, read off its action id. -/
def actionKindOf (a : Action) : Option ActionKind :=
  if a.id = "startvm" then some ActionKind.Start
  else if a.id = "restorevm" then some ActionKind.RestoreSaved
  else if a.id = "discardvm" then some ActionKind.DiscardSaved
  else if a.id = "savevm" then some ActionKind.Save
  else if a.id = "poweroffvm" then some ActionKind.PowerButton
  else if a.id = "stopvm" then some ActionKind.PowerDown
  else if a.id = "pausevm" then some ActionKind.Pause
  else if a.id = "resumevm" then some ActionKind.Resume
  else none

/-- An albert `RankItem(item, match)` as built by `Plugin.handleGlobalQuery`;
the matcher's score is opaque (a `Nat`). -/
structure RankItem where
  item : StandardItem
  score : Nat
  deriving DecidableEq, Repr

/-- The `for vm in machines` loop of `Plugin.handleGlobalQuery`: for each
machine in enumeration order, call the matcher on its name; on a match,
append a ranked item built from the machine. -/
def queryLoop (matcher : String → Option Nat) :
    List Machine → List Event × List RankItem
  | [] => ([], [])
  | vm :: rest =>
    let res := queryLoop matcher rest
    match matcher vm.name with
    | some m => (Event.matchE vm.name :: res.1, ⟨buildItem vm, m⟩ :: res.2)
    | none => (Event.matchE vm.name :: res.1, res.2)

/-- `Plugin.handleGlobalQuery`: one enumeration of the machine array, then
the matching loop. The matcher (built from the query string) is opaque. -/
def handleGlobalQuery (machines : List Machine)
    (matcher : String → Option Nat) : List Event × List RankItem :=
  let res := queryLoop matcher machines
  (Event.enumerateMachinesE :: res.1, res.2)

/-- Recognizes the session-release call. -/
def Event.isUnlock : Event → Bool
  | .unlockMachineE => true
  | _ => false

/-- Recognizes the session-object acquisition call. -/
def Event.isGetSession : Event → Bool
  | .getSessionObjectE => true
  | _ => false

/-- Recognizes the machine-lock call. -/
def Event.isLock : Event → Bool
  | .lockMachineE => true
  | _ => false

/-- Recognizes the machine-enumeration call. -/
def Event.isEnum : Event → Bool
  | .enumerateMachinesE => true
  | _ => false

/-- When acquisition and release all succeed, the guard wraps the body's
trace between acquisition and release events and passes through the
body's outcome. -/
lemma sharedLockedSession_all_ok (svc : ServiceBehavior)
    (body : List Event × Except String Unit)
    (h1 : svc.getSessionObjectR = Except.ok ())
    (h2 : svc.lockMachineR = Except.ok ())
    (h3 : svc.unlockMachineR = Except.ok ()) :
    sharedLockedSession svc body =
      (Event.getSessionObjectE :: Event.lockMachineE ::
        (body.1 ++ [Event.unlockMachineE]), body.2) := by
  unfold sharedLockedSession
  rw [h1, h2, h3]

/-- The `try` body of `startVm` never emits a warning event of its own. -/
lemma startVmBody_no_warning (svc : ServiceBehavior) (vm : Machine) :
    (startVmBody svc vm).1.countP Event.isWarning = 0 := by
  unfold startVmBody
  cases svc.getSessionObjectR <;>
    cases svc.launchVMProcessR <;>
      cases svc.waitForCompletionR <;> rfl

section ClaimC1

/-- C1: for every run state (and irrespective of machine id and name), the
kinds of the actions `buildItem` constructs are exactly the §4.2 table:
PoweredOff and Aborted give [Start]; Saved gives [RestoreSaved,
DiscardSaved]; Running gives [Save, PowerButton, PowerDown, Pause]; Paused
gives [Resume]; every other state gives []. The construction is pure and
deterministic: two machines in the same state get the same action list on
every call. -/
theorem buildItem_action_table (st : RunState) (i n i2 n2 : String) :
    ((buildItem ⟨i, n, st⟩).actions.map actionKindOf) =
      (legalActionsSpec st).map some ∧
    (buildItem ⟨i, n, st⟩).actions = (buildItem ⟨i2, n2, st⟩).actions := by
  cases st <;> exact ⟨rfl, rfl⟩

end ClaimC1

/-- Whatever the release outcome, once the lock succeeded the guard's trace
is acquisition, lock, the body's trace, then exactly one release. -/
lemma sharedLockedSession_locked_trace (svc : ServiceBehavior)
    (body : List Event × Except String Unit)
    (h1 : svc.getSessionObjectR = Except.ok ())
    (h2 : svc.lockMachineR = Except.ok ()) :
    (sharedLockedSession svc body).1 =
      Event.getSessionObjectE :: Event.lockMachineE ::
        (body.1 ++ [Event.unlockMachineE]) := by
  unfold sharedLockedSession
  rw [h1, h2]
  cases svc.unlockMachineR <;> rfl

lemma isGuard_of_isUnlock (e : Event) (h : Event.isUnlock e = true) :
    Event.isGuard e = true := by
  cases e <;> simp_all [Event.isUnlock, Event.isGuard]

lemma isGuard_of_isGetSession (e : Event) (h : Event.isGetSession e = true) :
    Event.isGuard e = true := by
  cases e <;> simp_all [Event.isGetSession, Event.isGuard]

lemma isGuard_of_isLock (e : Event) (h : Event.isLock e = true) :
    Event.isGuard e = true := by
  cases e <;> simp_all [Event.isLock, Event.isGuard]

/-- A trace with no guard events has no unlock, no session acquisition and
no lock events. -/
lemma countP_zero_of_guard_zero (tr : List Event)
    (h : tr.countP Event.isGuard = 0) :
    tr.countP Event.isUnlock = 0 ∧ tr.countP Event.isGetSession = 0 ∧
      tr.countP Event.isLock = 0 := by
  rw [List.countP_eq_zero] at h
  refine ⟨?_, ?_, ?_⟩ <;> rw [List.countP_eq_zero]
  · exact fun a ha hpa => h a ha (isGuard_of_isUnlock a hpa)
  · exact fun a ha hpa => h a ha (isGuard_of_isGetSession a hpa)
  · exact fun a ha hpa => h a ha (isGuard_of_isLock a hpa)

section ClaimC2

/-- C2: for any guarded body (given by its trace and outcome, with no
session-management calls of its own), when session-object acquisition and
the machine lock succeed, the guard calls unlock exactly once — whether
the body returns normally or raises — and attempts session acquisition
and the lock exactly once per guard call. -/
theorem sharedLockedSession_release_once (svc : ServiceBehavior)
    (body : List Event × Except String Unit)
    (h1 : svc.getSessionObjectR = Except.ok ())
    (h2 : svc.lockMachineR = Except.ok ())
    (hb : body.1.countP Event.isGuard = 0) :
    (sharedLockedSession svc body).1.countP Event.isUnlock = 1 ∧
    (sharedLockedSession svc body).1.countP Event.isGetSession = 1 ∧
    (sharedLockedSession svc body).1.countP Event.isLock = 1 := by
  have htr := sharedLockedSession_locked_trace svc body h1 h2
  have hz := countP_zero_of_guard_zero body.1 hb
  rw [htr]
  simp [List.countP_cons, List.countP_append, Event.isUnlock,
    Event.isGetSession, Event.isLock, hz.1, hz.2.1, hz.2.2]

/-- A service oracle on which every call succeeds. -/
def svcAllOk : ServiceBehavior :=
  ⟨Except.ok (), Except.ok (), Except.ok (), Except.ok (), Except.ok (),
   Except.ok (), Except.ok (), Except.ok (), Except.ok (), Except.ok (),
   Except.ok ()⟩

/-- Witness for C2 at a concrete raising body. -/
theorem sharedLockedSession_release_once_witness :
    (sharedLockedSession svcAllOk
        ([Event.powerButtonE], Except.error "boom")).1.countP
        Event.isUnlock = 1 ∧
    (sharedLockedSession svcAllOk
        ([Event.powerButtonE], Except.error "boom")).1.countP
        Event.isGetSession = 1 ∧
    (sharedLockedSession svcAllOk
        ([Event.powerButtonE], Except.error "boom")).1.countP
        Event.isLock = 1 :=
  sharedLockedSession_release_once svcAllOk
    ([Event.powerButtonE], Except.error "boom") rfl rfl rfl

end ClaimC2

section ClaimC3

/-- A service oracle on which locking the machine raises and everything
else succeeds. -/
def svcLockFail : ServiceBehavior :=
  ⟨Except.ok (), Except.error "lock failed", Except.ok (), Except.ok (),
   Except.ok (), Except.ok (), Except.ok (), Except.ok (), Except.ok (),
   Except.ok (), Except.ok ()⟩

/-- C3 counterexample: when `lockMachine` raises, the guarded call does
fail with that error, but `unlockMachine` IS called (once): `lockMachine`
sits inside the generator's `try`, so the `finally` still runs the
release. This refutes the claim that unlock is never called on the
lock-failure path. -/
theorem sharedLockedSession_lock_fail_counterexample :
    svcLockFail.lockMachineR = Except.error "lock failed" ∧
    (sharedLockedSession svcLockFail
        ([Event.powerButtonE], Except.ok ())).2 =
      Except.error "lock failed" ∧
    (sharedLockedSession svcLockFail
        ([Event.powerButtonE], Except.ok ())).1.countP Event.isUnlock = 1 :=
  ⟨rfl, rfl, rfl⟩

/-- C3 amended: if the lock acquisition step fails, the whole guarded call
fails — with the lock error when the release succeeds, otherwise with the
release error — the body never runs, and `unlock` is still called exactly
once (by the `finally`). -/
theorem sharedLockedSession_lock_fail (svc : ServiceBehavior)
    (body : List Event × Except String Unit) (e : String)
    (h1 : svc.getSessionObjectR = Except.ok ())
    (h2 : svc.lockMachineR = Except.error e) :
    (sharedLockedSession svc body).1 =
      [Event.getSessionObjectE, Event.lockMachineE, Event.unlockMachineE] ∧
    (sharedLockedSession svc body).1.countP Event.isUnlock = 1 ∧
    (sharedLockedSession svc body).2 =
      (match svc.unlockMachineR with
       | .ok _ => Except.error e
       | .error e2 => Except.error e2) := by
  unfold sharedLockedSession
  rw [h1, h2]
  cases svc.unlockMachineR <;> exact ⟨rfl, rfl, rfl⟩

/-- Witness for the amended C3 at the concrete lock-failing oracle. -/
theorem sharedLockedSession_lock_fail_witness :
    (sharedLockedSession svcLockFail ([Event.powerButtonE], Except.ok ())).1 =
      [Event.getSessionObjectE, Event.lockMachineE, Event.unlockMachineE] ∧
    (sharedLockedSession svcLockFail
        ([Event.powerButtonE], Except.ok ())).1.countP Event.isUnlock = 1 ∧
    (sharedLockedSession svcLockFail ([Event.powerButtonE], Except.ok ())).2 =
      (match svcLockFail.unlockMachineR with
       | .ok _ => Except.error "lock failed"
       | .error e2 => Except.error e2) :=
  sharedLockedSession_lock_fail svcLockFail
    ([Event.powerButtonE], Except.ok ()) "lock failed" rfl rfl

end ClaimC3

section ClaimC4

/-- C4: for every machine and every service behavior, `startVm` returns
normally, and it records exactly one warning when (and only when) some
call of its try body — session acquisition, process launch or the
completion wait — raised. -/
theorem startVm_swallows_failures (svc : ServiceBehavior) (vm : Machine) :
    (startVm svc vm).2 = Except.ok () ∧
    (startVm svc vm).1.countP Event.isWarning =
      (match (startVmBody svc vm).2 with
       | .ok _ => 0
       | .error _ => 1) := by
  have h := startVmBody_no_warning svc vm
  unfold startVm
  cases hb : startVmBody svc vm with
  | mk tr out =>
    rw [hb] at h
    cases out with
    | ok u => exact ⟨rfl, by simpa using h⟩
    | error e =>
      refine ⟨rfl, ?_⟩
      simp only [List.countP_append, List.countP_cons, List.countP_nil]
      simpa [Event.isWarning] using h

end ClaimC4

section ClaimC9

/-- C9: once the launch request succeeded, `startVm` calls the progress
wait with the unbounded timeout `-1`, directly after the launch call; and
no completion wait it ever performs uses any other timeout. -/
theorem startVm_wait_unbounded (svc : ServiceBehavior) (vm : Machine)
    (h1 : svc.getSessionObjectR = Except.ok ())
    (h2 : svc.launchVMProcessR = Except.ok ()) :
    (∃ rest, (startVm svc vm).1 =
      [Event.infoE ("Starting VM " ++ vm.name ++ " ..."),
       Event.getSessionObjectE, Event.launchVMProcessE "gui" "",
       Event.waitForCompletionE (-1)] ++ rest) ∧
    (∀ t : Int,
      Event.waitForCompletionE t ∈ (startVm svc vm).1 → t = -1) := by
  unfold startVm startVmBody
  rw [h1, h2]
  cases hw : svc.waitForCompletionR with
  | ok u =>
    refine ⟨⟨[], by simp⟩, ?_⟩
    intro t ht
    simp at ht
    exact ht
  | error e =>
    refine ⟨⟨[Event.warningE e], by simp⟩, ?_⟩
    intro t ht
    simp at ht
    exact ht

/-- A concrete powered-off machine. -/
def vmW : Machine := ⟨"vm-1", "work-vm", RunState.PoweredOff⟩

/-- Witness for C9 at an all-succeeding oracle and a concrete machine. -/
theorem startVm_wait_unbounded_witness :
    (∃ rest, (startVm svcAllOk vmW).1 =
      [Event.infoE ("Starting VM " ++ vmW.name ++ " ..."),
       Event.getSessionObjectE, Event.launchVMProcessE "gui" "",
       Event.waitForCompletionE (-1)] ++ rest) ∧
    (∀ t : Int,
      Event.waitForCompletionE t ∈ (startVm svcAllOk vmW).1 → t = -1) :=
  startVm_wait_unbounded svcAllOk vmW rfl rfl

end ClaimC9

section ClaimC5

/-- C5: for each of the six shared-session actions, when the session lock
path succeeds and the underlying service call raises, the action raises
exactly that error to its caller (nothing is caught), and the session was
still unlocked exactly once on that path. -/
theorem sharedActions_propagate (svc : ServiceBehavior) (vm : Machine)
    (h1 : svc.getSessionObjectR = Except.ok ())
    (h2 : svc.lockMachineR = Except.ok ())
    (h3 : svc.unlockMachineR = Except.ok ()) :
    (∀ e, svc.discardSavedStateR = Except.error e →
      (discardSavedVm svc vm).2 = Except.error e ∧
      (discardSavedVm svc vm).1.countP Event.isUnlock = 1) ∧
    (∀ e, svc.saveStateR = Except.error e →
      (saveVm svc vm).2 = Except.error e ∧
      (saveVm svc vm).1.countP Event.isUnlock = 1) ∧
    (∀ e, svc.powerButtonR = Except.error e →
      (acpiPowerVm svc vm).2 = Except.error e ∧
      (acpiPowerVm svc vm).1.countP Event.isUnlock = 1) ∧
    (∀ e, svc.powerDownR = Except.error e →
      (stopVm svc vm).2 = Except.error e ∧
      (stopVm svc vm).1.countP Event.isUnlock = 1) ∧
    (∀ e, svc.pauseR = Except.error e →
      (pauseVm svc vm).2 = Except.error e ∧
      (pauseVm svc vm).1.countP Event.isUnlock = 1) ∧
    (∀ e, svc.resumeR = Except.error e →
      (resumeVm svc vm).2 = Except.error e ∧
      (resumeVm svc vm).1.countP Event.isUnlock = 1) := by
  refine ⟨?_, ?_, ?_, ?_, ?_, ?_⟩ <;> intro e he
  · unfold discardSavedVm
    rw [sharedLockedSession_all_ok svc _ h1 h2 h3]
    exact ⟨he, rfl⟩
  · unfold saveVm
    rw [sharedLockedSession_all_ok svc _ h1 h2 h3]
    exact ⟨he, rfl⟩
  · unfold acpiPowerVm
    rw [sharedLockedSession_all_ok svc _ h1 h2 h3]
    exact ⟨he, rfl⟩
  · unfold stopVm
    rw [sharedLockedSession_all_ok svc _ h1 h2 h3]
    exact ⟨he, rfl⟩
  · unfold pauseVm
    rw [sharedLockedSession_all_ok svc _ h1 h2 h3]
    exact ⟨he, rfl⟩
  · unfold resumeVm
    rw [sharedLockedSession_all_ok svc _ h1 h2 h3]
    exact ⟨he, rfl⟩

/-- A service oracle whose session management succeeds but whose console
and machine operations all raise (with distinct messages). -/
def svcConsoleFail : ServiceBehavior :=
  ⟨Except.ok (), Except.ok (), Except.ok (), Except.ok (), Except.ok (),
   Except.error "pb", Except.error "pd", Except.error "save",
   Except.error "discard", Except.error "resume", Except.error "pause"⟩

/-- Witness for C5: each of the six actions at the concrete failing
oracle. -/
theorem sharedActions_propagate_witness :
    ((discardSavedVm svcConsoleFail vmW).2 = Except.error "discard" ∧
      (discardSavedVm svcConsoleFail vmW).1.countP Event.isUnlock = 1) ∧
    ((saveVm svcConsoleFail vmW).2 = Except.error "save" ∧
      (saveVm svcConsoleFail vmW).1.countP Event.isUnlock = 1) ∧
    ((acpiPowerVm svcConsoleFail vmW).2 = Except.error "pb" ∧
      (acpiPowerVm svcConsoleFail vmW).1.countP Event.isUnlock = 1) ∧
    ((stopVm svcConsoleFail vmW).2 = Except.error "pd" ∧
      (stopVm svcConsoleFail vmW).1.countP Event.isUnlock = 1) ∧
    ((pauseVm svcConsoleFail vmW).2 = Except.error "pause" ∧
      (pauseVm svcConsoleFail vmW).1.countP Event.isUnlock = 1) ∧
    ((resumeVm svcConsoleFail vmW).2 = Except.error "resume" ∧
      (resumeVm svcConsoleFail vmW).1.countP Event.isUnlock = 1) :=
  ⟨(sharedActions_propagate svcConsoleFail vmW rfl rfl rfl).1 "discard" rfl,
   (sharedActions_propagate svcConsoleFail vmW rfl rfl rfl).2.1 "save" rfl,
   (sharedActions_propagate svcConsoleFail vmW rfl rfl rfl).2.2.1 "pb" rfl,
   (sharedActions_propagate svcConsoleFail vmW rfl rfl rfl).2.2.2.1 "pd" rfl,
   (sharedActions_propagate svcConsoleFail vmW rfl rfl rfl).2.2.2.2.1
     "pause" rfl,
   (sharedActions_propagate svcConsoleFail vmW rfl rfl rfl).2.2.2.2.2
     "resume" rfl⟩

end ClaimC5

section ClaimC6

/-- A service oracle on which only releasing the session raises. -/
def svcUnlockFail : ServiceBehavior :=
  ⟨Except.ok (), Except.ok (), Except.error "unlock failed", Except.ok (),
   Except.ok (), Except.ok (), Except.ok (), Except.ok (), Except.ok (),
   Except.ok (), Except.ok ()⟩

/-- C6 counterexample: with a body that completes successfully and a
release that raises, the guard call reports the unlock error — not the
body's success — and records no warning: the `finally` has no exception
handling or logging around `unlockMachine`. This refutes the claim that
an unlock failure after a successful action is logged and does not mask
the action's outcome. -/
theorem sharedLockedSession_unlock_fail_counterexample :
    svcUnlockFail.unlockMachineR = Except.error "unlock failed" ∧
    (sharedLockedSession svcUnlockFail
        ([Event.powerButtonE], Except.ok ())).2 =
      Except.error "unlock failed" ∧
    (sharedLockedSession svcUnlockFail
        ([Event.powerButtonE], Except.ok ())).1.countP Event.isWarning = 0 :=
  ⟨rfl, rfl, rfl⟩

/-- C6 amended: if the release step fails after the guarded body completed
successfully, the guard call propagates the unlock error (masking the
body's success), and the guard logs nothing of its own — its trace is
just acquisition, lock, the body's trace and the release attempt. -/
theorem sharedLockedSession_unlock_fail (svc : ServiceBehavior)
    (body : List Event × Except String Unit) (e : String)
    (h1 : svc.getSessionObjectR = Except.ok ())
    (h2 : svc.lockMachineR = Except.ok ())
    (hb : body.2 = Except.ok ())
    (h3 : svc.unlockMachineR = Except.error e) :
    (sharedLockedSession svc body).2 = Except.error e ∧
    (sharedLockedSession svc body).1 =
      Event.getSessionObjectE :: Event.lockMachineE ::
        (body.1 ++ [Event.unlockMachineE]) := by
  unfold sharedLockedSession
  rw [h1, h2, h3]
  exact ⟨rfl, rfl⟩

/-- Witness for the amended C6 at the concrete unlock-failing oracle. -/
theorem sharedLockedSession_unlock_fail_witness :
    (sharedLockedSession svcUnlockFail
        ([Event.powerButtonE], Except.ok ())).2 =
      Except.error "unlock failed" ∧
    (sharedLockedSession svcUnlockFail ([Event.powerButtonE], Except.ok ())).1 =
      Event.getSessionObjectE :: Event.lockMachineE ::
        ([Event.powerButtonE] ++ [Event.unlockMachineE]) :=
  sharedLockedSession_unlock_fail svcUnlockFail
    ([Event.powerButtonE], Except.ok ()) "unlock failed" rfl rfl rfl rfl

end ClaimC6

section ClaimC7

/-- C7: the RestoreSaved action of a saved machine is bound to the very
same method as the Start action of a powered-off or aborted machine
(`startVm`), so invoking it performs the identical call sequence — fresh
session, process launch, completion wait — with the identical
failure-swallowing semantics. -/
theorem restoreSaved_same_as_start (vm₁ vm₂ : Machine)
    (hs : vm₁.state = RunState.Saved)
    (hp : vm₂.state = RunState.PoweredOff ∨ vm₂.state = RunState.Aborted) :
    buildActions vm₁ =
      [⟨"restorevm", "Start saved virtual machine", ExecKind.startVmK⟩,
       ⟨"discardvm", "Discard saved state", ExecKind.discardSavedVmK⟩] ∧
    buildActions vm₂ =
      [⟨"startvm", "Start virtual machine", ExecKind.startVmK⟩] ∧
    (∀ (svc : ServiceBehavior) (vm : Machine),
      runExec ExecKind.startVmK svc vm = startVm svc vm) := by
  obtain ⟨i1, n1, s1⟩ := vm₁
  obtain ⟨i2, n2, s2⟩ := vm₂
  change s1 = RunState.Saved at hs
  subst hs
  rcases hp with hp | hp <;> change s2 = _ at hp <;> subst hp <;>
    exact ⟨rfl, rfl, fun svc vm => rfl⟩

/-- A concrete machine with a saved state. -/
def vmSaved : Machine := ⟨"vm-2", "saved-vm", RunState.Saved⟩

/-- Witness for C7 at a concrete saved machine and a concrete powered-off
machine. -/
theorem restoreSaved_same_as_start_witness :
    buildActions vmSaved =
      [⟨"restorevm", "Start saved virtual machine", ExecKind.startVmK⟩,
       ⟨"discardvm", "Discard saved state", ExecKind.discardSavedVmK⟩] ∧
    buildActions vmW =
      [⟨"startvm", "Start virtual machine", ExecKind.startVmK⟩] ∧
    (∀ (svc : ServiceBehavior) (vm : Machine),
      runExec ExecKind.startVmK svc vm = startVm svc vm) :=
  restoreSaved_same_as_start vmSaved vmW rfl (Or.inl rfl)

end ClaimC7

/-- The matching loop returns exactly the ranked items of the machines the
matcher matches, in enumeration order. -/
lemma queryLoop_items (matcher : String → Option Nat) (ms : List Machine) :
    (queryLoop matcher ms).2 =
      ms.filterMap
        (fun vm => (matcher vm.name).map (fun m => ⟨buildItem vm, m⟩)) := by
  induction ms with
  | nil => rfl
  | cons vm rest ih =>
    cases h : matcher vm.name <;>
      simp [queryLoop, h, ih, List.filterMap_cons]

/-- The matching loop never enumerates the machine list itself. -/
lemma queryLoop_enum_count (matcher : String → Option Nat)
    (ms : List Machine) :
    (queryLoop matcher ms).1.countP Event.isEnum = 0 := by
  induction ms with
  | nil => rfl
  | cons vm rest ih =>
    cases h : matcher vm.name <;>
      simp [queryLoop, h, ih, List.countP_cons, Event.isEnum]

/-- The matching loop performs no mutating call. -/
lemma queryLoop_no_mutation (matcher : String → Option Nat)
    (ms : List Machine) :
    (queryLoop matcher ms).1.all (fun e => ! e.isMutation) = true := by
  induction ms with
  | nil => rfl
  | cons vm rest ih =>
    cases h : matcher vm.name <;>
      simp only [queryLoop, h] <;> rw [List.all_cons, ih] <;> rfl

section ClaimC8

/-- C8: a query enumerates the machine inventory exactly once, returns (in
enumeration order) exactly one entry per machine whose display name the
matcher matches — built from that machine and its match — drops every
machine with no match, and performs no mutating call. -/
theorem handleGlobalQuery_behavior (machines : List Machine)
    (matcher : String → Option Nat) :
    (handleGlobalQuery machines matcher).1.countP Event.isEnum = 1 ∧
    (handleGlobalQuery machines matcher).2 =
      machines.filterMap
        (fun vm => (matcher vm.name).map (fun m => ⟨buildItem vm, m⟩)) ∧
    (handleGlobalQuery machines matcher).1.all
      (fun e => ! e.isMutation) = true := by
  refine ⟨?_, queryLoop_items matcher machines, ?_⟩
  · show (Event.enumerateMachinesE :: (queryLoop matcher machines).1).countP
      Event.isEnum = 1
    simp [List.countP_cons, Event.isEnum, queryLoop_enum_count]
  · show (Event.enumerateMachinesE :: (queryLoop matcher machines).1).all
      (fun e => ! e.isMutation) = true
    rw [List.all_cons, queryLoop_no_mutation]
    rfl

end ClaimC8

section ClaimC10

/-- C10: `buildItem` never omits a machine: for every machine its item
carries the machine's id as item id and the machine's name as item text —
with an empty action list when the state admits no legal action — and
every machine the matcher matches yields an entry in the query result. -/
theorem buildItem_never_omits (vm : Machine) :
    (buildItem vm).id = vm.id ∧
    (buildItem vm).text = vm.name ∧
    (legalActionsSpec vm.state = [] → (buildItem vm).actions = []) ∧
    (∀ (machines : List Machine) (matcher : String → Option Nat) (m : Nat),
      vm ∈ machines → matcher vm.name = some m →
      (⟨buildItem vm, m⟩ : RankItem) ∈ (handleGlobalQuery machines matcher).2)
    := by
  refine ⟨rfl, rfl, ?_, ?_⟩
  · intro h
    obtain ⟨i, n, st⟩ := vm
    cases st <;>
      first
        | rfl
        | exact absurd h (by simp [legalActionsSpec])
  · intro machines matcher m hmem hmatch
    show (⟨buildItem vm, m⟩ : RankItem) ∈ (queryLoop matcher machines).2
    rw [queryLoop_items]
    exact List.mem_filterMap.mpr ⟨vm, hmem, by rw [hmatch]; rfl⟩

/-- A concrete machine in a transitional state with no legal actions. -/
def vmStuck : Machine := ⟨"vm-3", "stuck-vm", RunState.Stuck⟩

/-- A concrete matcher matching exactly the name of `vmStuck`. -/
def matcherW : String → Option Nat :=
  fun s => if s = "stuck-vm" then some 7 else none

/-- Witness for C10: the action-less stuck machine still yields an item
and a query entry. -/
theorem buildItem_never_omits_witness :
    (buildItem vmStuck).id = vmStuck.id ∧
    (buildItem vmStuck).text = vmStuck.name ∧
    (buildItem vmStuck).actions = [] ∧
    (⟨buildItem vmStuck, 7⟩ : RankItem) ∈
      (handleGlobalQuery [vmStuck] matcherW).2 := by
  have h := buildItem_never_omits vmStuck
  exact ⟨h.1, h.2.1, h.2.2.1 rfl,
    h.2.2.2 [vmStuck] matcherW 7 (List.mem_singleton.mpr rfl) rfl⟩

end ClaimC10

end VBoxPlugin
